import Mathlib

/-!
Verification of the color-sensor classification core of
`color_detector_esp32/src/main.cpp` (TCS2300 color sensor on an ESP32 with an
SSD1306 OLED display).

The embedding below translates the pure computational fragment of the source:

* the label constants of `enum COLOR_STR_MAP`,
* the Arduino `map()` affine transform used by `read_color_channel` to
  normalize a raw pulse width into the RGB 0..255 scale,
* the extrema-tracking update performed on the global
  `color_min_max_readings` array inside `read_color_channel`,
* the two-stage classifier `map_color_vals`,
* the label-to-string display selection inside `write_color_to_display`.

Machine integers (`int` on the 32-bit ESP32) are embedded as `Int`; all the
concrete values involved are far below 2^31, so no wraparound modelling is
needed.  C integer division (`/` on `int`, truncation toward zero) is
`Int.tdiv`.

In Stage 2 the C code works with `double`s: the truncated integer mean is
converted to `double` exactly, the squared deviations and the absolute
deviations `abs(avg - color_readings[i])` are exact integer-valued doubles,
and the only inexact quantities are `std_dev = sqrt(sum_sq / 3)` and the
three quotients `outlier_i = |avg - c_i| / std_dev`.  Those quotients are
only ever compared with each other: when `std_dev > 0`, dividing the three
exact nonnegative integer numerators by the one common positive `std_dev`
preserves their strict order (the integer numerators are small, so the
rounded quotients keep every strict inequality), hence the comparisons are
embedded as comparisons of the integer numerators `|avg - c_i|`.  When
`std_dev = 0` — which forces every numerator to be `0` — the C quotients are
all `0.0/0.0 = NaN`, every `>` comparison on them is false, and the function
falls through to the error code 255; the embedding models that case by an
explicit branch on `std_dev_sq_sum = 0`.
-/

/-- `COLOR_STR_MAP::RED_STR` from the source. -/
def RED_STR : Nat := 0

/-- `COLOR_STR_MAP::GREEN_STR` from the source. -/
def GREEN_STR : Nat := 1

/-- `COLOR_STR_MAP::BLUE_STR` from the source. -/
def BLUE_STR : Nat := 2

/-- `COLOR_STR_MAP::BLACK_STR` from the source. -/
def BLACK_STR : Nat := 3

/-- `COLOR_STR_MAP::WHITE_STR` from the source. -/
def WHITE_STR : Nat := 4

/-- `COLOR_STR_MAP::UNDEF_STR` from the source. -/
def UNDEF_STR : Nat := 5

/-- `#define RGB_VAL_MAPPING_LEN 6` from the source. -/
def RGB_VAL_MAPPING_LEN : Nat := 6

/-- `RGB_DISPLAY_MAP` from the source: the label-to-string display table. -/
def RGB_DISPLAY_MAP : List String :=
  ["Red", "Green", "Blue", "Black", "White", "Undef"]

/-- `uint8_t wb_deviation = 8` from `map_color_vals`: the radial deviation
band for the achromatic (black/white) test. -/
def wb_deviation : Int := 8

/-- `uint16_t wb_determine = 220 * 3` from `map_color_vals`: the sum
threshold splitting Black from White. -/
def wb_determine : Int := 220 * 3

/-- The condition under which `red_in_bw_rng` is set in `map_color_vals`:
`abs(r - g) < wb_deviation && abs(r - b) < wb_deviation`. -/
def red_in_bw_rng (r g b : Int) : Prop :=
  |r - g| < wb_deviation ∧ |r - b| < wb_deviation

/-- The condition under which `grn_in_bw_rng` is set in `map_color_vals`:
`abs(g - r) < wb_deviation && abs(g - b) < wb_deviation`. -/
def grn_in_bw_rng (r g b : Int) : Prop :=
  |g - r| < wb_deviation ∧ |g - b| < wb_deviation

/-- The condition under which `blu_in_bw_rng` is set in `map_color_vals`:
`abs(b - r) < wb_deviation && abs(b - g) < wb_deviation`. -/
def blu_in_bw_rng (r g b : Int) : Prop :=
  |b - r| < wb_deviation ∧ |b - g| < wb_deviation

instance (r g b : Int) : Decidable (red_in_bw_rng r g b) :=
  inferInstanceAs (Decidable (_ ∧ _))

instance (r g b : Int) : Decidable (grn_in_bw_rng r g b) :=
  inferInstanceAs (Decidable (_ ∧ _))

instance (r g b : Int) : Decidable (blu_in_bw_rng r g b) :=
  inferInstanceAs (Decidable (_ ∧ _))

/-- The Stage 1 achromatic guard of `map_color_vals`:
`red_in_bw_rng && grn_in_bw_rng && blu_in_bw_rng`. -/
def achromatic_rng (r g b : Int) : Prop :=
  red_in_bw_rng r g b ∧ grn_in_bw_rng r g b ∧ blu_in_bw_rng r g b

instance (r g b : Int) : Decidable (achromatic_rng r g b) :=
  inferInstanceAs (Decidable (_ ∧ _ ∧ _))

/-- `double avg = (color_readings[0] + color_readings[1] + color_readings[2]) / 3;`
from `map_color_vals`.  The three readings are `int`s, so the division is C
integer division (truncation toward zero, `Int.tdiv`); only afterwards is
the quotient converted to `double` (exactly, since it is a small integer). -/
def sensor_avg (r g b : Int) : Int := (r + g + b).tdiv 3

/-- The sum of squared deviations
`pow(c0 - avg, 2) + pow(c1 - avg, 2) + pow(c2 - avg, 2)` inside the
`std_dev` computation of `map_color_vals`; the C `std_dev` equals
`sqrt(std_dev_sq_sum / 3.0)`, and in particular `std_dev = 0` exactly when
`std_dev_sq_sum = 0`. -/
def std_dev_sq_sum (r g b : Int) : Int :=
  (r - sensor_avg r g b) ^ 2 + (g - sensor_avg r g b) ^ 2 +
    (b - sensor_avg r g b) ^ 2

/-- The exact integer numerator of `double red_outlier = abs(avg - color_readings[0]) / std_dev;`
in `map_color_vals`. -/
def red_outlier_num (r g b : Int) : Int := |sensor_avg r g b - r|

/-- The exact integer numerator of `double grn_outlier = abs(avg - color_readings[1]) / std_dev;`
in `map_color_vals`. -/
def grn_outlier_num (r g b : Int) : Int := |sensor_avg r g b - g|

/-- The exact integer numerator of `double blu_outlier = abs(avg - color_readings[2]) / std_dev;`
in `map_color_vals`. -/
def blu_outlier_num (r g b : Int) : Int := |sensor_avg r g b - b|

/-- `uint8_t map_color_vals()` from the source, as a pure function of the
three normalized readings `color_readings[0..2]` it consults.

Stage 1 is the achromatic test with the Black/White sum split.  Stage 2
compares the Grubbs-style outlier scores `|avg - c_i| / std_dev`; as
explained in the file header these comparisons are embedded as comparisons
of the exact integer numerators `|avg - c_i|`, and the `std_dev = 0` case
(all quotients NaN, every comparison false in C) is the explicit
`std_dev_sq_sum = 0` branch returning the error code 255.  The inner
direction checks are transcribed verbatim from the source — including the
duplicated `color_readings[0] < color_readings[1]` test in the red branch. -/
def map_color_vals (r g b : Int) : Nat :=
  if achromatic_rng r g b then
    if r + g + b > wb_determine then WHITE_STR else BLACK_STR
  else if std_dev_sq_sum r g b = 0 then
    255
  else
    if red_outlier_num r g b > grn_outlier_num r g b ∧
       red_outlier_num r g b > blu_outlier_num r g b then
      if r < g ∨ r < g then UNDEF_STR else RED_STR
    else if grn_outlier_num r g b > red_outlier_num r g b ∧
            grn_outlier_num r g b > blu_outlier_num r g b then
      if g < r ∨ g < b then UNDEF_STR else GREEN_STR
    else if blu_outlier_num r g b > red_outlier_num r g b ∧
            blu_outlier_num r g b > grn_outlier_num r g b then
      if b < r ∨ b < g then UNDEF_STR else BLUE_STR
    else
      255

/-- Claim C1: when every pairwise absolute difference of the three
normalized readings is strictly below `wb_deviation = 8`, `map_color_vals`
takes the Stage 1 achromatic branch and returns White exactly when
`r + g + b > 660` and Black otherwise; in particular a sum of exactly 660
yields Black, and the result is always Black or White. -/
theorem C1_achromatic_split (r g b : Int)
    (h : |r - g| < 8 ∧ |r - b| < 8 ∧ |g - b| < 8) :
    map_color_vals r g b =
      (if r + g + b > 660 then WHITE_STR else BLACK_STR) ∧
    (r + g + b = 660 → map_color_vals r g b = BLACK_STR) ∧
    (map_color_vals r g b = BLACK_STR ∨ map_color_vals r g b = WHITE_STR) := by
  have hach : achromatic_rng r g b := by
    obtain ⟨h1, h2, h3⟩ := h
    rw [abs_lt] at h1 h2 h3
    refine ⟨⟨?_, ?_⟩, ⟨?_, ?_⟩, ⟨?_, ?_⟩⟩ <;>
      · rw [abs_lt]; unfold wb_deviation; omega
  have hmap : map_color_vals r g b =
      (if r + g + b > 660 then WHITE_STR else BLACK_STR) := by
    unfold map_color_vals wb_determine
    rw [if_pos hach]
    norm_num
  refine ⟨hmap, ?_, ?_⟩
  · intro hsum
    rw [hmap, if_neg]
    omega
  · rw [hmap]
    by_cases hgt : r + g + b > 660
    · exact Or.inr (by rw [if_pos hgt])
    · exact Or.inl (by rw [if_neg hgt])

/-- Witness for C1 at the boundary: three identical readings of 220 sum to
exactly 660 and classify as Black. -/
theorem C1_achromatic_split_witness :
    map_color_vals 220 220 220 = BLACK_STR :=
  (C1_achromatic_split 220 220 220 (by norm_num)).2.1 (by norm_num)


/-- Red strictly dominates the Stage 2 outlier comparison: its z-score
numerator exceeds both others (equivalent, for the common positive
`std_dev`, to `red_outlier > grn_outlier && red_outlier > blu_outlier`). -/
def red_strict_max (r g b : Int) : Prop :=
  red_outlier_num r g b > grn_outlier_num r g b ∧
  red_outlier_num r g b > blu_outlier_num r g b

/-- Green strictly dominates the Stage 2 outlier comparison. -/
def grn_strict_max (r g b : Int) : Prop :=
  grn_outlier_num r g b > red_outlier_num r g b ∧
  grn_outlier_num r g b > blu_outlier_num r g b

/-- Blue strictly dominates the Stage 2 outlier comparison. -/
def blu_strict_max (r g b : Int) : Prop :=
  blu_outlier_num r g b > red_outlier_num r g b ∧
  blu_outlier_num r g b > grn_outlier_num r g b

instance (r g b : Int) : Decidable (red_strict_max r g b) :=
  inferInstanceAs (Decidable (_ ∧ _))

instance (r g b : Int) : Decidable (grn_strict_max r g b) :=
  inferInstanceAs (Decidable (_ ∧ _))

instance (r g b : Int) : Decidable (blu_strict_max r g b) :=
  inferInstanceAs (Decidable (_ ∧ _))

/-- `std_dev` vanishes exactly on all-equal triples: the sum of squared
deviations from the truncated mean is zero iff the three readings agree. -/
lemma std_dev_sq_sum_eq_zero_iff (r g b : Int) :
    std_dev_sq_sum r g b = 0 ↔ r = g ∧ g = b := by
  constructor
  · intro h0
    unfold std_dev_sq_sum at h0
    have h1 : (r - sensor_avg r g b) ^ 2 = 0 := by
      nlinarith [sq_nonneg (r - sensor_avg r g b), sq_nonneg (g - sensor_avg r g b),
        sq_nonneg (b - sensor_avg r g b), h0]
    have h2 : (g - sensor_avg r g b) ^ 2 = 0 := by
      nlinarith [sq_nonneg (r - sensor_avg r g b), sq_nonneg (g - sensor_avg r g b),
        sq_nonneg (b - sensor_avg r g b), h0]
    have h3 : (b - sensor_avg r g b) ^ 2 = 0 := by
      nlinarith [sq_nonneg (r - sensor_avg r g b), sq_nonneg (g - sensor_avg r g b),
        sq_nonneg (b - sensor_avg r g b), h0]
    rw [pow_eq_zero_iff (two_ne_zero)] at h1 h2 h3
    omega
  · rintro ⟨rfl, rfl⟩
    have havg : sensor_avg r r r = r := by
      unfold sensor_avg
      have : r + r + r = r * 3 := by ring
      rw [this, Int.mul_tdiv_cancel r (by norm_num)]
    unfold std_dev_sq_sum
    rw [havg]
    ring

/-- Characterization of the Stage 2 branch of `map_color_vals`: once the
achromatic test has failed, the result is decided by the strict-dominance
tests and the verbatim direction checks.  (When `std_dev = 0` all readings
agree, no channel strictly dominates, and both sides are 255.) -/
lemma map_color_vals_stage2 (r g b : Int) (hna : ¬ achromatic_rng r g b) :
    map_color_vals r g b =
      if red_strict_max r g b then
        if r < g ∨ r < g then UNDEF_STR else RED_STR
      else if grn_strict_max r g b then
        if g < r ∨ g < b then UNDEF_STR else GREEN_STR
      else if blu_strict_max r g b then
        if b < r ∨ b < g then UNDEF_STR else BLUE_STR
      else 255 := by
  unfold map_color_vals
  rw [if_neg hna]
  by_cases h0 : std_dev_sq_sum r g b = 0
  · rw [if_pos h0]
    obtain ⟨rfl, rfl⟩ := (std_dev_sq_sum_eq_zero_iff r g b).mp h0
    rw [if_neg (fun hred => lt_irrefl _ hred.1),
      if_neg (fun hgrn => lt_irrefl _ hgrn.1),
      if_neg (fun hblu => lt_irrefl _ hblu.1)]
  · rw [if_neg h0]
    rfl

/-- Claim C2: in Stage 2 (the achromatic test failed), a channel's hue label
is returned only when that channel's z-score strictly exceeds both other
channels' z-scores, and whenever no channel's z-score is strictly greatest
the function returns the error code 255 (MappingError). -/
theorem C2_strict_dominance (r g b : Int) (hna : ¬ achromatic_rng r g b) :
    (map_color_vals r g b = RED_STR → red_strict_max r g b) ∧
    (map_color_vals r g b = GREEN_STR → grn_strict_max r g b) ∧
    (map_color_vals r g b = BLUE_STR → blu_strict_max r g b) ∧
    (¬ red_strict_max r g b ∧ ¬ grn_strict_max r g b ∧ ¬ blu_strict_max r g b →
      map_color_vals r g b = 255) := by
  rw [map_color_vals_stage2 r g b hna]
  split_ifs with h1 h2 h3 h4 h5 h6 <;>
    refine ⟨?_, ?_, ?_, ?_⟩ <;> intro hh <;>
      first
        | exact absurd hh (by decide)
        | assumption
        | rfl
        | exact absurd h1 hh.1
        | exact absurd h2 hh.1
        | exact absurd h2 hh.2.1
        | exact absurd h3 hh.2.1
        | exact absurd h3 hh.2.2
        | exact absurd h4 hh.2.1
        | exact absurd h4 hh.2.2
        | exact absurd h5 hh.2.2

/-- Witness for C2: readings (0, 50, 100) fail the achromatic test, red and
blue tie exactly for the highest z-score numerator (50 each, against green's
0), so no channel is strictly greatest and the result is the error
code 255. -/
theorem C2_strict_dominance_witness : map_color_vals 0 50 100 = 255 :=
  (C2_strict_dominance 0 50 100 (by decide)).2.2.2 (by decide)

/-- Claim C3: the Stage 2 direction checks, verbatim from the source.  When
red is the strict outlier the test is `color_readings[0] < color_readings[1]`
written twice, so blue is never consulted and Undefined is returned exactly
when `r < g`; when green or blue is the strict outlier both other readings
are consulted; in every non-Undefined case the candidate's hue label is
returned. -/
theorem C3_direction_checks (r g b : Int) (hna : ¬ achromatic_rng r g b) :
    (red_strict_max r g b →
      map_color_vals r g b = if r < g then UNDEF_STR else RED_STR) ∧
    (grn_strict_max r g b →
      map_color_vals r g b = if g < r ∨ g < b then UNDEF_STR else GREEN_STR) ∧
    (blu_strict_max r g b →
      map_color_vals r g b = if b < r ∨ b < g then UNDEF_STR else BLUE_STR) := by
  rw [map_color_vals_stage2 r g b hna]
  refine ⟨?_, ?_, ?_⟩ <;> intro hmax
  · rw [if_pos hmax]
    simp only [or_self]
  · rw [if_neg (fun hred => lt_asymm hmax.1 hred.1), if_pos hmax]
  · rw [if_neg (fun hred => lt_asymm hmax.1 hred.2),
      if_neg (fun hgrn => lt_asymm hmax.2 hgrn.2), if_pos hmax]

/-- Witness for C3: readings (100, 0, 0) fail the achromatic test, red is
the strict outlier (numerators 67, 33, 33 around the truncated mean 33),
`r < g` is false, and Red is returned — the red branch never consults
blue. -/
theorem C3_direction_checks_witness : map_color_vals 100 0 0 = RED_STR := by
  have h := (C3_direction_checks 100 0 0 (by decide)).1 (by decide)
  rw [h, if_neg (by norm_num)]

/-- The Arduino framework's `map(x, in_min, in_max, out_min, out_max)`
function used by `read_color_channel`:
`(x - in_min) * (out_max - out_min) / (in_max - in_min) + out_min`,
computed in C integer arithmetic (`long`), so the division truncates toward
zero (`Int.tdiv`). -/
def map_arduino (x in_min in_max out_min out_max : Int) : Int :=
  ((x - in_min) * (out_max - out_min)).tdiv (in_max - in_min) + out_min

/-- `color_read_calib_vals` from the source: the per-channel empirical
(min, max) raw calibration bounds, rows indexed by `COLOR_CHANNELS`. -/
def color_read_calib_vals : Fin 4 → Int × Int
  | ⟨0, _⟩ => (1, 111)
  | ⟨1, _⟩ => (2, 125)
  | ⟨2, _⟩ => (1, 101)
  | ⟨3, _⟩ => (0, 255)
  | ⟨n + 4, h⟩ => absurd h (by omega)

/-- The normalization performed at the end of `read_color_channel`:
`map(ret_val, color_read_calib_vals[i][0], color_read_calib_vals[i][1], 255, 0)`
(the reversed 255/0 output pair inverts the sensor's pulse-width scale into
RGB intensities). -/
def normalize_channel (i : Fin 4) (raw : Int) : Int :=
  map_arduino raw (color_read_calib_vals i).1 (color_read_calib_vals i).2 255 0

/-- Endpoint and out-of-range behavior of the Arduino map onto `[255, 0]`
for a calibration span of at most 255: the endpoints are exact and every
input strictly outside the calibration range lands strictly outside
`[0, 255]`. -/
lemma map_arduino_calib_bounds (lo hi raw : Int) (hlo : 0 < hi - lo)
    (hspan : hi - lo ≤ 255) :
    (raw = lo → map_arduino raw lo hi 255 0 = 255) ∧
    (raw = hi → map_arduino raw lo hi 255 0 = 0) ∧
    (raw < lo ∨ hi < raw →
      map_arduino raw lo hi 255 0 < 0 ∨ 255 < map_arduino raw lo hi 255 0) := by
  unfold map_arduino
  refine ⟨?_, ?_, ?_⟩
  · rintro rfl
    simp
  · intro h
    rw [h, Int.mul_tdiv_cancel_left _ (show hi - lo ≠ 0 by omega)]
    norm_num
  · rintro (hlt | hgt)
    · right
      rw [show (raw - lo) * (0 - 255) = 255 * (lo - raw) by ring,
        Int.tdiv_eq_ediv (by omega) (by omega)]
      have h1 : (1 : Int) ≤ 255 * (lo - raw) / (hi - lo) :=
        (Int.le_ediv_iff_mul_le hlo).mpr (by omega)
      linarith
    · left
      rw [show (raw - lo) * (0 - 255) = -(255 * (raw - lo)) by ring,
        Int.neg_tdiv, Int.tdiv_eq_ediv (by omega) (by omega)]
      have h1 : (256 : Int) ≤ 255 * (raw - lo) / (hi - lo) :=
        (Int.le_ediv_iff_mul_le hlo).mpr (by omega)
      linarith

/-- Claim C4: for every channel, `normalize_channel` maps a raw reading
equal to the calibration minimum `rawLow` to exactly 255, a raw reading
equal to `rawHigh` to exactly 0, and — since no clamping is applied — every
raw reading strictly outside `[rawLow, rawHigh]` to a value strictly
outside `[0, 255]`. -/
theorem C4_normalize_endpoints (i : Fin 4) (raw : Int) :
    (raw = (color_read_calib_vals i).1 → normalize_channel i raw = 255) ∧
    (raw = (color_read_calib_vals i).2 → normalize_channel i raw = 0) ∧
    (raw < (color_read_calib_vals i).1 ∨ (color_read_calib_vals i).2 < raw →
      normalize_channel i raw < 0 ∨ 255 < normalize_channel i raw) := by
  have hlo : 0 < (color_read_calib_vals i).2 - (color_read_calib_vals i).1 := by
    fin_cases i <;> decide
  have hspan : (color_read_calib_vals i).2 - (color_read_calib_vals i).1 ≤ 255 := by
    fin_cases i <;> decide
  exact map_arduino_calib_bounds _ _ raw hlo hspan

/-- Witness for C4 on the red channel: its `rawLow` is 1 and a raw reading
of 1 normalizes to exactly 255. -/
theorem C4_normalize_endpoints_witness :
    (1 : Int) = (color_read_calib_vals 0).1 ∧ normalize_channel 0 1 = 255 :=
  ⟨by decide, (C4_normalize_endpoints 0 1).1 (by decide)⟩

/-- The min/max update performed on `color_min_max_readings[color_index]`
inside `read_color_channel`: `if (ret_val < min) min = ret_val; else if
(ret_val > max) max = ret_val;`. -/
def extrema_update (mm : Int × Int) (raw : Int) : Int × Int :=
  if raw < mm.1 then (raw, mm.2)
  else if raw > mm.2 then (mm.1, raw)
  else mm

/-- The initial sentinel row `{32767, -32768}` of `color_min_max_readings`. -/
def color_min_max_init : Int × Int := (32767, -32768)

/-- Claim C5: a single `extrema_update` never changes both bounds — if
`raw < min` only the minimum is replaced, else if `raw > max` only the
maximum is replaced — and one update with raw = 50 from the initial
sentinel state `{32767, -32768}` yields exactly `{50, -32768}`. -/
theorem C5_extrema_update_single (mm : Int × Int) (raw : Int) :
    ((extrema_update mm raw).1 = mm.1 ∨ (extrema_update mm raw).2 = mm.2) ∧
    (raw < mm.1 → extrema_update mm raw = (raw, mm.2)) ∧
    (¬ raw < mm.1 → raw > mm.2 → extrema_update mm raw = (mm.1, raw)) ∧
    extrema_update color_min_max_init 50 = (50, -32768) := by
  unfold extrema_update
  refine ⟨?_, ?_, ?_, by decide⟩
  · split_ifs <;> simp
  · intro h
    rw [if_pos h]
  · intro h1 h2
    rw [if_neg h1, if_pos h2]

/-- Witness for C5: the concrete first-call asymmetry, applying the update
theorem at the sentinel state with raw = 50. -/
theorem C5_extrema_update_single_witness :
    50 < color_min_max_init.1 ∧
    extrema_update color_min_max_init 50 = (50, color_min_max_init.2) :=
  ⟨by decide, (C5_extrema_update_single color_min_max_init 50).2.1 (by decide)⟩

/-- Claim C6: with `wb_deviation = 8`, the Stage 2 division by `std_dev` is
never a division by zero: `std_dev` vanishes only on all-equal triples,
every all-equal triple passes the Stage 1 achromatic test (pairwise
difference 0 < 8) and returns before Stage 2, so every triple that fails
Stage 1 has a nonzero sum of squared deviations. -/
theorem C6_stddev_nonzero (r g b : Int) :
    (std_dev_sq_sum r g b = 0 ↔ r = g ∧ g = b) ∧
    (¬ achromatic_rng r g b → std_dev_sq_sum r g b ≠ 0) := by
  refine ⟨std_dev_sq_sum_eq_zero_iff r g b, ?_⟩
  intro hna h0
  obtain ⟨rfl, rfl⟩ := (std_dev_sq_sum_eq_zero_iff r g b).mp h0
  apply hna
  refine ⟨⟨?_, ?_⟩, ⟨?_, ?_⟩, ⟨?_, ?_⟩⟩ <;>
    · rw [sub_self, abs_zero]; unfold wb_deviation; norm_num

/-- Witness for C6: the chromatic triple (255, 200, 200) fails the
achromatic test and indeed has a nonzero sum of squared deviations. -/
theorem C6_stddev_nonzero_witness : std_dev_sq_sum 255 200 200 ≠ 0 :=
  (C6_stddev_nonzero 255 200 200).2 (by decide)

/-- Modelled from the spec's words, for comparison with the code's
`sensor_avg`: the exact arithmetic mean of the three readings as a
rational number. -/
def avg_exact (r g b : Int) : ℚ := ((r : ℚ) + g + b) / 3

/-- Counterexample to claim C7: for the Stage 2 triple (255, 200, 200) with
sum 655 not divisible by 3, the code's mean is the truncated integer 218,
not the exact rational 655/3. -/
theorem C7_avg_counterexample :
    (sensor_avg 255 200 200 : ℚ) ≠ avg_exact 255 200 200 := by
  have h : sensor_avg 255 200 200 = 218 := by decide
  rw [h]
  unfold avg_exact
  norm_num

/-- Claim C7 as amended: the mean used in Stage 2 is the C
integer-truncated quotient `(r + g + b) / 3`, which agrees with the exact
arithmetic mean exactly when the sum of the readings is divisible by 3. -/
theorem C7_avg_truncated (r g b : Int) :
    (sensor_avg r g b : ℚ) = avg_exact r g b ↔ (3 : Int) ∣ (r + g + b) := by
  unfold sensor_avg avg_exact
  rw [show ((r : ℚ) + g + b) = ((r + g + b : Int) : ℚ) by push_cast; ring,
    eq_div_iff (by norm_num : (3 : ℚ) ≠ 0)]
  constructor
  · intro h
    have h' : (r + g + b).tdiv 3 * 3 = r + g + b := by exact_mod_cast h
    exact ⟨(r + g + b).tdiv 3, by omega⟩
  · rintro ⟨k, hk⟩
    have h' : (r + g + b).tdiv 3 * 3 = r + g + b := by
      rw [hk, Int.mul_tdiv_cancel_left k (by norm_num)]
      ring
    exact_mod_cast h'

/-- The pure label-to-string selection at the end of
`write_color_to_display`, transcribed verbatim from the source:

`if (map_val < RGB_VAL_MAPPING_LEN)` the code prints
`RGB_DISPLAY_MAP[COLOR_STR_MAP::BLACK_STR]` — the line printing
`RGB_DISPLAY_MAP[map_val]` is commented out behind the comment
"TEMP: just for the thumbnail" — `else` it prints `"MAP ERR"`. -/
def write_color_display_str (map_val : Nat) : String :=
  if map_val < RGB_VAL_MAPPING_LEN then RGB_DISPLAY_MAP.getD BLACK_STR ""
  else "MAP ERR"

/-- Claim C8 is violated by the code (the claim matches the commented-out
line and the surrounding documentation, not the executed line): for the
conclusive classification 0 (Red) — produced e.g. by readings (100, 0, 0) —
the display is handed the string "Black", not the table entry "Red" for
that label; only the MappingError half of the claim holds (255 renders the
literal "MAP ERR"). -/
theorem C8_display_temp_hack :
    map_color_vals 100 0 0 = RED_STR ∧
    RGB_DISPLAY_MAP.getD RED_STR "" = "Red" ∧
    write_color_display_str (map_color_vals 100 0 0) = "Black" ∧
    write_color_display_str 255 = "MAP ERR" := by
  refine ⟨by decide, by decide, ?_, by decide⟩
  have h : map_color_vals 100 0 0 = RED_STR := by decide
  rw [h]
  decide

/-- `int read_color_channel(uint8_t&)` from the source, as a function of
the channel index, that channel's stored extrema row and the raw reading
delivered by `pulseIn`: it returns the updated extrema row together with
the normalized reading that the caller stores into `color_readings`. -/
def read_color_channel (i : Fin 4) (mm : Int × Int) (raw : Int) :
    (Int × Int) × Int :=
  (extrema_update mm raw, normalize_channel i raw)

/-- One classification cycle of `loop()`: channels 0..2 are read through
`read_color_channel` (each consulting and updating its own extrema row)
and the three normalized readings are classified by `map_color_vals`. -/
def classify_cycle (ext : Fin 4 → Int × Int) (raws : Fin 4 → Int) : Nat :=
  map_color_vals
    (read_color_channel 0 (ext 0) (raws 0)).2
    (read_color_channel 1 (ext 1) (raws 1)).2
    (read_color_channel 2 (ext 2) (raws 2)).2

/-- Claim C9: the classification output does not depend on the
extrema-tracker state — two cycles over the same raw readings but
arbitrary different extrema states classify identically, and the
normalized value returned by a channel read is the same for any two stored
(min, max) rows.  The extrema update is purely observational. -/
theorem C9_extrema_noninterference (ext ext' : Fin 4 → Int × Int)
    (raws : Fin 4 → Int) (i : Fin 4) (mm mm' : Int × Int) (raw : Int) :
    classify_cycle ext raws = classify_cycle ext' raws ∧
    (read_color_channel i mm raw).2 = (read_color_channel i mm' raw).2 :=
  ⟨rfl, rfl⟩

/-- Claim C10: for every input triple `map_color_vals` returns one of the
six label indices 0..5 or the error code 255 and nothing else, so the
guard `map_val < RGB_VAL_MAPPING_LEN` in the display path distinguishes
exactly the MappingError case from the labeled cases. -/
theorem C10_result_range (r g b : Int) :
    (map_color_vals r g b = RED_STR ∨ map_color_vals r g b = GREEN_STR ∨
     map_color_vals r g b = BLUE_STR ∨ map_color_vals r g b = BLACK_STR ∨
     map_color_vals r g b = WHITE_STR ∨ map_color_vals r g b = UNDEF_STR ∨
     map_color_vals r g b = 255) ∧
    (map_color_vals r g b < RGB_VAL_MAPPING_LEN ↔
      map_color_vals r g b ≠ 255) := by
  unfold map_color_vals
  split_ifs <;> exact ⟨by decide, by decide⟩
